import Mathlib

/-!
Verification of the error-representation and error-translation layer of the
aiowamp client (`aiowamp/errors.py`) and the subscription event object
(`aiowamp/client/event.py`).

The Python code is shallowly embedded:

* WAMP values are a small inductive `WAMPType`; sequences are lists and
  mappings are association lists.
* Python exceptions raised inside `error_to_exception` are modelled with
  `Except RaiseKind`: a factory either returns an exception value or raises.
* The outbound path (`set_invocation_error`, `exception_to_invocation_error`)
  mutates and compares objects by identity, so it is embedded over an explicit
  heap: a list of exception objects addressed by `Nat` references.
-/

namespace Aiowamp

/-- A WAMP value (`aiowamp.WAMPType`), restricted to the ground cases the
claims exercise: integers, strings and booleans. -/
inductive WAMPType where
  | int (n : Int)
  | str (s : String)
  | bool (b : Bool)
deriving DecidableEq, Repr

/-- Python `str()` of a `WAMPType` value, as used by `InvocationError.__str__`. -/
def WAMPType.pyStr : WAMPType → String
  | .int n => toString n
  | .str s => s
  | .bool b => if b then "True" else "False"

/-- A WAMP dictionary (`aiowamp.WAMPDict`): string keys to WAMP values. -/
abbrev WAMPDict := List (String × WAMPType)

/-- A WAMP list (`aiowamp.WAMPList`). -/
abbrev WAMPList := List WAMPType

/-- Modelled from the spec: `aiowamp.URI.as_uri` lives in `aiowamp/uri.py`,
which is not part of the given sources.  Per the spec a URI is an "immutable
string-like value, hierarchical, ... constructible from a raw string with
validation (`as_uri`)", so the conversion preserves the string content. -/
def URI.as_uri (s : String) : String := s

/-- Modelled from the spec: `aiowamp.uri.RUNTIME_ERROR` lives in
`aiowamp/uri.py`, which is not part of the given sources.  Per the spec it is
the "fixed, well-known generic runtime error URI" used as the outbound
fallback; WAMP names it `wamp.error.runtime_error`. -/
def RUNTIME_ERROR : String := "wamp.error.runtime_error"

/-- A WAMP error message (`aiowamp.msg.Error`) as consumed by the error layer:
an error URI plus positional, keyword and detail payloads. -/
structure ErrorMessage where
  error : String
  args : WAMPList
  kwargs : WAMPDict
  details : WAMPDict
deriving DecidableEq, Repr

/-- Modelled from the spec: `URIMap` lives in `aiowamp/uri_map.py`, which is
not part of the given sources.  Per the spec it maps a URI key to a value with
exact-key semantics, the last registration for a URI wins, and resolving an
unregistered key fails with a lookup-not-found signal.  It is embedded as an
association list where registration conses (so the newest entry shadows older
ones) and resolution returns the first match, or `none` for the
lookup-not-found signal. -/
abbrev URIMap (α : Type) := List (String × α)

/-- Registration in a `URIMap`: store `v` under `u`, overwriting any prior
value for that exact key. -/
def URIMap.register (m : URIMap α) (u : String) (v : α) : URIMap α :=
  (u, v) :: m

/-- Resolution in a `URIMap`: the value stored under the exact key `u`, or
`none` (the lookup-not-found signal) when `u` was never registered. -/
def URIMap.resolve (m : URIMap α) (u : String) : Option α :=
  (m.find? fun p => p.1 == u).map Prod.snd

/-- The kind of exception a Python computation may raise: `LookupError` (which
`error_to_exception` catches) or any other exception, identified by a code. -/
inductive RaiseKind where
  | lookupError
  | otherError (code : Nat)
deriving DecidableEq, Repr

/-- An exception value as returned by the inbound path: either the generic
`ErrorResponse` wrapping the raw error message (`errors.py` line 77), or an
abstract exception value produced by a registered factory. -/
inductive PyExc where
  | errorResponse (message : ErrorMessage)
  | factoryMade (tag : Nat)
deriving DecidableEq, Repr

/-- An error factory (`ErrorFactory` in `errors.py`): a callable creating an
exception from a WAMP error message, which may itself raise. -/
abbrev ErrorFactory := ErrorMessage → Except RaiseKind PyExc

/-- The inbound registry `ERR_RESP_MAP : URIMap[ErrorFactory]`. -/
abbrev ErrRespMap := URIMap ErrorFactory

/-- `register_error_response(uri)` applied to a factory: validates the URI and
stores the factory in the inbound registry keyed by it (`errors.py` 114-125).
The registry is passed explicitly instead of living in a module global. -/
def register_error_response (m : ErrRespMap) (uri : String) (f : ErrorFactory) :
    ErrRespMap :=
  URIMap.register m (URI.as_uri uri) f

/-- `get_exception_factory(uri)`: `ERR_RESP_MAP[uri]`, raising the
lookup-not-found signal (`KeyError`, a `LookupError`) when absent
(`errors.py` 128-129). -/
def get_exception_factory (m : ErrRespMap) (uri : String) :
    Except RaiseKind ErrorFactory :=
  match URIMap.resolve m uri with
  | some f => .ok f
  | none => .error .lookupError

/-- `error_to_exception(message)` (`errors.py` 132-136): try to resolve the
factory for `message.error` and invoke it on `message`; any `LookupError`
raised by the lookup or by the factory is caught and turned into an
`ErrorResponse` wrapping the message; other exceptions propagate. -/
def error_to_exception (m : ErrRespMap) (message : ErrorMessage) :
    Except RaiseKind PyExc :=
  match (do (← get_exception_factory m message.error) message :
      Except RaiseKind PyExc) with
  | .error .lookupError => .ok (.errorResponse message)
  | r => r

/-- The slot contents of an `InvocationError` (`errors.py` 143-159): a URI and
optional positional, keyword and detail payloads. -/
structure InvFields where
  uri : String
  args : Option WAMPList
  kwargs : Option WAMPDict
  details : Option WAMPDict
deriving DecidableEq, Repr

/-- Python truthiness of an optional container: `None` and the empty container
are falsy. -/
def optTruthy (x : Option (List α)) : Bool :=
  match x with
  | none => false
  | some l => !l.isEmpty

/-- Python `x or None` for an optional container `x`: `None` when `x` is falsy
(absent or empty), `x` itself otherwise. -/
def orNone (x : Option (List α)) : Option (List α) :=
  if optTruthy x then x else none

/-- `InvocationError.__init__(uri, *args, kwargs=None, details=None)`
(`errors.py` 153-159): the URI is validated via `as_uri`; `args` is
`list(args) or None`; `kwargs` and `details` are `kwargs or None` and
`details or None`. -/
def InvocationError.init (uri : String) (args : WAMPList)
    (kwargs : Option WAMPDict) (details : Option WAMPDict) : InvFields :=
  { uri := URI.as_uri uri
    args := orNone (some args)
    kwargs := orNone kwargs
    details := orNone details }

/-- `InvocationError.__str__` (`errors.py` 185-190): when `self.args` is
truthy, the URI followed by a space and the comma-separated `str()` of each
argument; otherwise just the URI. -/
def InvocationError.render (e : InvFields) : String :=
  if optTruthy e.args then
    e.uri ++ " " ++ String.intercalate ", " ((e.args.getD []).map WAMPType.pyStr)
  else
    e.uri

/-- A reference to an exception object on the heap. -/
abbrev ExcId := Nat

/-- A Python exception object as seen by the outbound path: either an
`InvocationError` instance carrying its slot contents, or any other exception
carrying its type name and its positional arguments (`exc.args`).  Either way
the object may carry the `__invocation_error__` attribute set by
`set_invocation_error` (`errors.py` 193, 202), holding a reference to an
`InvocationError` object. -/
inductive ExcObj where
  | invErr (fields : InvFields) (attached : Option ExcId)
  | plain (ty : String) (pargs : WAMPList) (attached : Option ExcId)
deriving DecidableEq, Repr

/-- The heap: exception objects addressed by their position. -/
abbrev Heap := List ExcObj

/-- The `InvocationError` slot contents of the object `i`, when `i` is a live
`InvocationError` reference. -/
def Heap.invFieldsOf (h : Heap) (i : ExcId) : Option InvFields :=
  match h[i]? with
  | some (.invErr f _) => some f
  | _ => none

/-- The outbound registry `EXC_URI_MAP : Dict[Type[Exception], URI]`, keyed by
the exception's type name; `get_exception_uri` (`errors.py` 139-140) is a
plain dict lookup raising `KeyError` when absent, embedded as `none`. -/
abbrev ExcUriMap := List (String × String)

/-- `EXC_URI_MAP[exc]` for a type name, `none` standing for the raised
`KeyError`. -/
def get_exception_uri (m : ExcUriMap) (ty : String) : Option String :=
  (m.find? fun p => p.1 == ty).map Prod.snd

/-- `set_invocation_error(exc, err)` (`errors.py` 196-202): when `exc` is an
`InvocationError` its fields are overwritten in place from `err` via `_init`
(`errors.py` 161-165, which copies `uri`, `args`, `kwargs`, `details`);
otherwise `err` is attached to `exc` under the `__invocation_error__`
attribute.  `none` models a dangling reference or `_init` reading slots that
do not exist. -/
def set_invocation_error (h : Heap) (exc err : ExcId) : Option Heap := do
  let o ← h[exc]?
  match o with
  | .invErr _ att => do
      let f ← h.invFieldsOf err
      some (h.set exc (.invErr f att))
  | .plain ty pargs _ =>
      some (h.set exc (.plain ty pargs (some err)))

/-- `exception_to_invocation_error(exc)` (`errors.py` 205-221): if `exc` is an
`InvocationError`, return it unchanged; else if the `__invocation_error__`
attribute is present, return the attached object; else look up `type(exc)` in
the outbound registry — falling back to `RUNTIME_ERROR` when unregistered —
and allocate `InvocationError(uri, *exc.args)`.  Returns the (possibly grown)
heap together with the reference to the result. -/
def exception_to_invocation_error (m : ExcUriMap) (h : Heap) (exc : ExcId) :
    Option (Heap × ExcId) := do
  let o ← h[exc]?
  match o with
  | .invErr _ _ => some (h, exc)
  | .plain ty pargs att =>
    match att with
    | some e => some (h, e)
    | none =>
      let uri := match get_exception_uri m ty with
        | some u => u
        | none => RUNTIME_ERROR
      some (h ++ [.invErr (InvocationError.init uri pargs none none) none],
            h.length)

/-- A WAMP event message (`aiowamp.msg.Event`) as consumed by
`SubscriptionEvent.__init__`: publication id plus optional positional and
keyword payloads and details. -/
structure EventMessage where
  publication_id : Nat
  args : Option WAMPList
  kwargs : Option WAMPDict
  details : WAMPDict
deriving DecidableEq, Repr

/-- A `SubscriptionEvent` (`client/event.py` 13-47): the client is an abstract
handle; `args`, `kwargs` and `details` are the values stored by the
constructor and returned unchanged by the properties
(`client/event.py` 61-71). -/
structure SubscriptionEvent where
  client : Nat
  topic : String
  publication_id : Nat
  args : WAMPList
  kwargs : WAMPDict
  details : WAMPDict
deriving DecidableEq, Repr

/-- Python `x or y` for an optional mapping `x`: `y` when `x` is falsy (absent
or empty), `x` itself otherwise. -/
def orDefault (x : Option (List α)) (y : List α) : List α :=
  if optTruthy x then x.getD y else y

/-- `SubscriptionEvent.__init__(client, msg, *, topic)`
(`client/event.py` 27-47): `args` is `tuple(msg.args) if msg.args else ()`,
`kwargs` is `msg.kwargs or ` the empty dict, and `details` is `msg.details`
unchanged. -/
def SubscriptionEvent.init (client : Nat) (msg : EventMessage) (topic : String) :
    SubscriptionEvent :=
  { client := client
    topic := topic
    publication_id := msg.publication_id
    args := if optTruthy msg.args then msg.args.getD [] else []
    kwargs := orDefault msg.kwargs []
    details := msg.details }

/-! ## Theorems -/

/-- C2: for every error message whose error URI was never registered in the
inbound registry, `error_to_exception` returns an `ErrorResponse` wrapping
that exact message, and does not raise. -/
theorem error_to_exception_unregistered (m : ErrRespMap) (message : ErrorMessage)
    (hu : URIMap.resolve m message.error = none) :
    error_to_exception m message = .ok (.errorResponse message) := by
  simp [error_to_exception, get_exception_factory, Bind.bind, Except.bind, hu]

/-- Witness for C2 at a concrete registry and message. -/
theorem error_to_exception_unregistered_witness :
    error_to_exception [] ⟨"com.example.err", [], [], []⟩ =
      .ok (.errorResponse ⟨"com.example.err", [], [], []⟩) :=
  error_to_exception_unregistered [] ⟨"com.example.err", [], [], []⟩ rfl

/-- C3: after registering factory `f` under URI `u` via
`register_error_response`, `error_to_exception` on a message whose error field
equals `u` returns exactly the result of invoking `f` with that message. -/
theorem error_to_exception_registered (m : ErrRespMap) (u : String)
    (f : ErrorFactory) (message : ErrorMessage) (exc : PyExc)
    (hu : message.error = URI.as_uri u) (hf : f message = .ok exc) :
    error_to_exception (register_error_response m u f) message = .ok exc := by
  simp [error_to_exception, get_exception_factory, Bind.bind, Except.bind, URIMap.resolve,
    register_error_response, URIMap.register, hu, hf]

/-- Witness for C3 at a concrete registry, factory and message. -/
theorem error_to_exception_registered_witness :
    error_to_exception
      (register_error_response [] "com.example.err" fun _ => .ok (.factoryMade 7))
      ⟨"com.example.err", [], [], []⟩ = .ok (.factoryMade 7) :=
  error_to_exception_registered [] "com.example.err" _ _ _ rfl rfl

/-- C9: with factory `f` registered for the message's URI, a `LookupError`
raised by `f` itself is caught by the lookup-failure fallback and turned into
an `ErrorResponse` wrapping the message, while any non-`LookupError` exception
raised by `f` propagates to the caller. -/
theorem error_to_exception_factory_raises (m : ErrRespMap) (u : String)
    (f : ErrorFactory) (message : ErrorMessage)
    (hu : message.error = URI.as_uri u) :
    (f message = .error .lookupError →
      error_to_exception (register_error_response m u f) message =
        .ok (.errorResponse message)) ∧
    (∀ c, f message = .error (.otherError c) →
      error_to_exception (register_error_response m u f) message =
        .error (.otherError c)) := by
  constructor
  · intro hf
    simp [error_to_exception, get_exception_factory, Bind.bind, Except.bind, URIMap.resolve,
      register_error_response, URIMap.register, hu, hf]
  · intro c hf
    simp [error_to_exception, get_exception_factory, Bind.bind, Except.bind, URIMap.resolve,
      register_error_response, URIMap.register, hu, hf]

/-- Witness for C9: a factory raising `LookupError` at a concrete input. -/
theorem error_to_exception_factory_raises_witness :
    error_to_exception
      (register_error_response [] "com.example.err" fun _ => .error .lookupError)
      ⟨"com.example.err", [], [], []⟩ =
      .ok (.errorResponse ⟨"com.example.err", [], [], []⟩) :=
  (error_to_exception_factory_raises [] "com.example.err" _ _ rfl).1 rfl

/-- An optional container produced by `orNone` is never the empty container. -/
theorem orNone_ne_nil {α : Type} {x : Option (List α)} {l : List α}
    (h : orNone x = some l) : l ≠ [] := by
  cases x with
  | none => simp [orNone, optTruthy] at h
  | some y =>
    cases y with
    | nil => simp [orNone, optTruthy] at h
    | cons a t =>
      simp [orNone, optTruthy] at h
      intro hl
      rw [hl] at h
      exact (List.cons_ne_nil a t) h

/-- `orNone` maps an absent or empty container to `none`. -/
theorem orNone_falsy {α : Type} {x : Option (List α)}
    (h : x = none ∨ x = some []) : orNone x = (none : Option (List α)) := by
  rcases h with h | h <;> subst h <;> rfl

/-- C7: every `InvocationError` built by the constructor has `args`, `kwargs`
and `details` either absent or a non-empty container; unsupplied positional
arguments and unsupplied-or-empty `kwargs`/`details` come out as `none`, never
as an empty-but-present container. -/
theorem invocationError_init_none_or_nonempty (uri : String) (args : WAMPList)
    (kwargs : Option WAMPDict) (details : Option WAMPDict) :
    (∀ l, (InvocationError.init uri args kwargs details).args = some l → l ≠ []) ∧
    (∀ l, (InvocationError.init uri args kwargs details).kwargs = some l → l ≠ []) ∧
    (∀ l, (InvocationError.init uri args kwargs details).details = some l → l ≠ []) ∧
    (args = [] → (InvocationError.init uri args kwargs details).args = none) ∧
    ((kwargs = none ∨ kwargs = some []) →
      (InvocationError.init uri args kwargs details).kwargs = none) ∧
    ((details = none ∨ details = some []) →
      (InvocationError.init uri args kwargs details).details = none) := by
  refine ⟨fun l h => orNone_ne_nil h, fun l h => orNone_ne_nil h,
    fun l h => orNone_ne_nil h, ?_, ?_, ?_⟩
  · intro h; subst h; rfl
  · intro h; exact orNone_falsy h
  · intro h; exact orNone_falsy h

/-- Witness for C7 at unsupplied args and kwargs and an empty details dict. -/
theorem invocationError_init_none_or_nonempty_witness :
    (InvocationError.init "com.example.bare" [] none (some [])).args = none ∧
    (InvocationError.init "com.example.bare" [] none (some [])).kwargs = none ∧
    (InvocationError.init "com.example.bare" [] none (some [])).details = none :=
  ⟨(invocationError_init_none_or_nonempty "com.example.bare" [] none
      (some [])).2.2.2.1 rfl,
   (invocationError_init_none_or_nonempty "com.example.bare" [] none
      (some [])).2.2.2.2.1 (Or.inl rfl),
   (invocationError_init_none_or_nonempty "com.example.bare" [] none
      (some [])).2.2.2.2.2 (Or.inr rfl)⟩

/-- C8: the rendering of an `InvocationError` is the URI followed by a space
and the comma-separated args when args are present, and just the URI when args
are absent; `kwargs` and `details` never influence the rendering.  In
particular `InvocationError("com.example.bad_arg", 1, 2, kwargs={"x": 3})`
renders as `"com.example.bad_arg 1, 2"`. -/
theorem invocationError_render_spec (uri : String) (args : WAMPList)
    (kwargs : Option WAMPDict) (details : Option WAMPDict) :
    (args ≠ [] →
      InvocationError.render (InvocationError.init uri args kwargs details) =
        URI.as_uri uri ++ " " ++
          String.intercalate ", " (args.map WAMPType.pyStr)) ∧
    (args = [] →
      InvocationError.render (InvocationError.init uri args kwargs details) =
        URI.as_uri uri) ∧
    (∀ kwargs2 details2,
      InvocationError.render (InvocationError.init uri args kwargs details) =
        InvocationError.render (InvocationError.init uri args kwargs2 details2)) ∧
    InvocationError.render
      (InvocationError.init "com.example.bad_arg" [.int 1, .int 2]
        (some [("x", .int 3)]) none) = "com.example.bad_arg 1, 2" := by
  refine ⟨?_, ?_, ?_, ?_⟩
  · intro h
    cases args with
    | nil => exact absurd rfl h
    | cons a t =>
      simp [InvocationError.render, InvocationError.init, orNone, optTruthy]
  · intro h; subst h; rfl
  · intro kwargs2 details2
    simp [InvocationError.render, InvocationError.init]
  · rfl

/-- Witness for C8: a present-args and an absent-args rendering. -/
theorem invocationError_render_spec_witness :
    InvocationError.render (InvocationError.init "a.b" [.int 5] none none) =
      URI.as_uri "a.b" ++ " " ++
        String.intercalate ", " ([WAMPType.int 5].map WAMPType.pyStr) ∧
    InvocationError.render
      (InvocationError.init "a.b" [] (some [("x", .int 3)]) none) =
      URI.as_uri "a.b" :=
  ⟨(invocationError_render_spec "a.b" [.int 5] none none).1
      (List.cons_ne_nil _ _),
   (invocationError_render_spec "a.b" [] (some [("x", .int 3)]) none).2.1 rfl⟩

/-- C1: `exception_to_invocation_error` follows the exact priority order: an
`InvocationError` is returned itself (same reference, heap untouched); an
attached `InvocationError` outranks the outbound registry regardless of the
registry's contents; a type registered in the outbound table outranks the
generic fallback; an unregistered, unattached exception yields a fresh
`InvocationError` under the generic runtime-error URI. -/
theorem exception_to_invocation_error_priority (m : ExcUriMap) (h : Heap)
    (x : ExcId) (o : ExcObj) (hx : h[x]? = some o) :
    (∀ f att, o = .invErr f att →
      exception_to_invocation_error m h x = some (h, x)) ∧
    (∀ ty pargs e, o = .plain ty pargs (some e) →
      exception_to_invocation_error m h x = some (h, e)) ∧
    (∀ ty pargs u, o = .plain ty pargs none → get_exception_uri m ty = some u →
      exception_to_invocation_error m h x =
        some (h ++ [.invErr (InvocationError.init u pargs none none) none],
          h.length)) ∧
    (∀ ty pargs, o = .plain ty pargs none → get_exception_uri m ty = none →
      exception_to_invocation_error m h x =
        some (h ++
            [.invErr (InvocationError.init RUNTIME_ERROR pargs none none) none],
          h.length)) := by
  refine ⟨?_, ?_, ?_, ?_⟩
  · intro f att ho
    subst ho
    simp [exception_to_invocation_error, Bind.bind, Option.bind, hx]
  · intro ty pargs e ho
    subst ho
    simp [exception_to_invocation_error, Bind.bind, Option.bind, hx]
  · intro ty pargs u ho hm
    subst ho
    simp [exception_to_invocation_error, Bind.bind, Option.bind, hx, hm]
  · intro ty pargs ho hm
    subst ho
    simp [exception_to_invocation_error, Bind.bind, Option.bind, hx, hm]

/-- Witness for C1: an exception whose type is registered outbound but which
also carries an attachment — the attachment wins. -/
theorem exception_to_invocation_error_priority_witness :
    exception_to_invocation_error [("ValueError", "com.example.custom")]
      [ExcObj.plain "ValueError" [] (some 1),
       ExcObj.invErr ⟨"com.example.attached", none, none, none⟩ none] 0 =
      some ([ExcObj.plain "ValueError" [] (some 1),
             ExcObj.invErr ⟨"com.example.attached", none, none, none⟩ none],
        1) :=
  (exception_to_invocation_error_priority [("ValueError", "com.example.custom")]
    [ExcObj.plain "ValueError" [] (some 1),
     ExcObj.invErr ⟨"com.example.attached", none, none, none⟩ none]
    0 _ rfl).2.1 "ValueError" [] 1 rfl

/-- A non-empty container passes through `orNone` unchanged. -/
theorem orNone_some_of_ne_nil {α : Type} {l : List α} (h : l ≠ []) :
    orNone (some l) = some l := by
  cases l with
  | nil => exact absurd rfl h
  | cons a t => rfl

/-- C4: an exception whose type has no outbound entry and which carries no
attachment converts to a fresh `InvocationError` whose URI is the generic
runtime-error URI and whose args are the exception's positional arguments. -/
theorem exception_to_invocation_error_fallback (m : ExcUriMap) (h : Heap)
    (x : ExcId) (ty : String) (pargs : WAMPList)
    (hx : h[x]? = some (.plain ty pargs none))
    (hm : get_exception_uri m ty = none) :
    exception_to_invocation_error m h x =
      some (h ++
          [.invErr (InvocationError.init RUNTIME_ERROR pargs none none) none],
        h.length) ∧
    Heap.invFieldsOf
        (h ++
          [.invErr (InvocationError.init RUNTIME_ERROR pargs none none) none])
        h.length =
      some (InvocationError.init RUNTIME_ERROR pargs none none) ∧
    (InvocationError.init RUNTIME_ERROR pargs none none).uri = RUNTIME_ERROR ∧
    (InvocationError.init RUNTIME_ERROR pargs none none).args.getD [] = pargs ∧
    (pargs ≠ [] →
      (InvocationError.init RUNTIME_ERROR pargs none none).args = some pargs)
    := by
  refine ⟨?_, ?_, rfl, ?_, ?_⟩
  · simp [exception_to_invocation_error, Bind.bind, Option.bind, hx, hm]
  · simp [Heap.invFieldsOf, List.getElem?_concat_length]
  · cases pargs with
    | nil => rfl
    | cons a t => rfl
  · intro hne
    exact orNone_some_of_ne_nil hne

/-- Witness for C4 at a one-object heap and an empty outbound registry. -/
theorem exception_to_invocation_error_fallback_witness :
    exception_to_invocation_error []
      [ExcObj.plain "ValueError" [WAMPType.int 1] none] 0 =
      some ([ExcObj.plain "ValueError" [WAMPType.int 1] none] ++
          [ExcObj.invErr
            (InvocationError.init RUNTIME_ERROR [WAMPType.int 1] none none)
            none],
        1) :=
  (exception_to_invocation_error_fallback []
    [ExcObj.plain "ValueError" [WAMPType.int 1] none] 0 "ValueError"
    [WAMPType.int 1] rfl rfl).1

/-- C5: attaching `e` to a non-`InvocationError` exception `x` stores the
attachment without touching `x`'s type or positional arguments, and a
subsequent `exception_to_invocation_error` on `x` returns exactly the
reference `e`. -/
theorem set_invocation_error_then_convert (m : ExcUriMap) (h : Heap)
    (x e : ExcId) (ty : String) (pargs : WAMPList) (att : Option ExcId)
    (fe : InvFields) (hx : h[x]? = some (.plain ty pargs att))
    (_he : h.invFieldsOf e = some fe) :
    set_invocation_error h x e =
      some (h.set x (.plain ty pargs (some e))) ∧
    (h.set x (.plain ty pargs (some e)))[x]? =
      some (ExcObj.plain ty pargs (some e)) ∧
    exception_to_invocation_error m (h.set x (.plain ty pargs (some e))) x =
      some (h.set x (.plain ty pargs (some e)), e) := by
  have hlt : x < h.length := (List.getElem?_eq_some.mp hx).1
  have hget : (h.set x (.plain ty pargs (some e)))[x]? =
      some (ExcObj.plain ty pargs (some e)) :=
    List.getElem?_set_eq_of_lt _ hlt
  refine ⟨?_, hget, ?_⟩
  · simp [set_invocation_error, Bind.bind, Option.bind, hx]
  · simp [exception_to_invocation_error, Bind.bind, Option.bind, hget]

/-- Witness for C5: a plain exception and an `InvocationError` on a
two-object heap. -/
theorem set_invocation_error_then_convert_witness :
    exception_to_invocation_error []
      (([ExcObj.plain "ValueError" [] none,
         ExcObj.invErr ⟨"com.example.attached", none, none, none⟩ none]).set 0
        (.plain "ValueError" [] (some 1))) 0 =
      some (([ExcObj.plain "ValueError" [] none,
              ExcObj.invErr ⟨"com.example.attached", none, none, none⟩
                none]).set 0 (.plain "ValueError" [] (some 1)),
        1) :=
  (set_invocation_error_then_convert []
    [ExcObj.plain "ValueError" [] none,
     ExcObj.invErr ⟨"com.example.attached", none, none, none⟩ none]
    0 1 "ValueError" [] none ⟨"com.example.attached", none, none, none⟩
    rfl rfl).2.2

/-- C6: calling `set_invocation_error` twice on an `InvocationError` `x`, with
two `InvocationError`s `e1` and then `e2` distinct from `x`, overwrites `x`'s
fields in place: afterwards `x`'s fields are `e2`'s fields, `x` is still the
same object (no allocation, same reference, attachment attribute untouched),
and the heap has the same size. -/
theorem set_invocation_error_overwrites_in_place (h : Heap) (x e1 e2 : ExcId)
    (fx : InvFields) (attx : Option ExcId) (f1 f2 : InvFields)
    (hx : h[x]? = some (.invErr fx attx))
    (he1 : h.invFieldsOf e1 = some f1)
    (he2 : h.invFieldsOf e2 = some f2)
    (hne : e2 ≠ x) :
    (set_invocation_error h x e1).bind
        (fun h1 => set_invocation_error h1 x e2) =
      some ((h.set x (.invErr f1 attx)).set x (.invErr f2 attx)) ∧
    Heap.invFieldsOf ((h.set x (.invErr f1 attx)).set x (.invErr f2 attx)) x =
      some f2 ∧
    ((h.set x (.invErr f1 attx)).set x (.invErr f2 attx))[x]? =
      some (ExcObj.invErr f2 attx) ∧
    ((h.set x (.invErr f1 attx)).set x (.invErr f2 attx)).length = h.length
    := by
  have hlt : x < h.length := (List.getElem?_eq_some.mp hx).1
  have hlt1 : x < (h.set x (.invErr f1 attx)).length := by
    simpa using hlt
  have hget1 : (h.set x (.invErr f1 attx))[x]? =
      some (ExcObj.invErr f1 attx) :=
    List.getElem?_set_eq_of_lt _ hlt
  have he2' : Heap.invFieldsOf (h.set x (.invErr f1 attx)) e2 = some f2 := by
    unfold Heap.invFieldsOf at he2 ⊢
    rwa [List.getElem?_set_ne (Ne.symm hne)]
  have hget2 : ((h.set x (.invErr f1 attx)).set x (.invErr f2 attx))[x]? =
      some (ExcObj.invErr f2 attx) :=
    List.getElem?_set_eq_of_lt _ hlt1
  refine ⟨?_, ?_, hget2, ?_⟩
  · have hs1 : set_invocation_error h x e1 =
        some (h.set x (.invErr f1 attx)) := by
      simp [set_invocation_error, Bind.bind, Option.bind, hx, he1]
    have hs2 : set_invocation_error (h.set x (.invErr f1 attx)) x e2 =
        some ((h.set x (.invErr f1 attx)).set x (.invErr f2 attx)) := by
      simp [set_invocation_error, Bind.bind, Option.bind, hget1, he2']
    simp [hs1, hs2]
  · unfold Heap.invFieldsOf
    rw [hget2]
  · simp

/-- Witness for C6 on a three-object heap of distinct `InvocationError`s. -/
theorem set_invocation_error_overwrites_in_place_witness :
    Heap.invFieldsOf
      (([ExcObj.invErr ⟨"com.example.a", none, none, none⟩ none,
         ExcObj.invErr ⟨"com.example.b", some [WAMPType.int 1], none, none⟩
           none,
         ExcObj.invErr ⟨"com.example.c", none, some [("k", WAMPType.int 2)],
           none⟩ none].set 0
          (.invErr ⟨"com.example.b", some [WAMPType.int 1], none, none⟩
            none)).set 0
        (.invErr ⟨"com.example.c", none, some [("k", WAMPType.int 2)], none⟩
          none)) 0 =
      some ⟨"com.example.c", none, some [("k", WAMPType.int 2)], none⟩ :=
  (set_invocation_error_overwrites_in_place
    [ExcObj.invErr ⟨"com.example.a", none, none, none⟩ none,
     ExcObj.invErr ⟨"com.example.b", some [WAMPType.int 1], none, none⟩ none,
     ExcObj.invErr ⟨"com.example.c", none, some [("k", WAMPType.int 2)], none⟩
       none]
    0 1 2 ⟨"com.example.a", none, none, none⟩ none
    ⟨"com.example.b", some [WAMPType.int 1], none, none⟩
    ⟨"com.example.c", none, some [("k", WAMPType.int 2)], none⟩
    rfl rfl rfl (by decide)).2.1

/-- C10: a `SubscriptionEvent` always exposes `args` as a tuple — the empty
tuple when the message's args are absent or empty — and `kwargs` as a mapping
— the empty mapping when the message's kwargs are absent or empty — while
`details` is stored and returned exactly as carried by the message, with no
such normalization. -/
theorem subscriptionEvent_normalizes (client : Nat) (msg : EventMessage)
    (topic : String) :
    ((msg.args = none ∨ msg.args = some []) →
      (SubscriptionEvent.init client msg topic).args = []) ∧
    (∀ l, l ≠ [] → msg.args = some l →
      (SubscriptionEvent.init client msg topic).args = l) ∧
    ((msg.kwargs = none ∨ msg.kwargs = some []) →
      (SubscriptionEvent.init client msg topic).kwargs = []) ∧
    (∀ k, k ≠ [] → msg.kwargs = some k →
      (SubscriptionEvent.init client msg topic).kwargs = k) ∧
    (SubscriptionEvent.init client msg topic).details = msg.details := by
  refine ⟨?_, ?_, ?_, ?_, rfl⟩
  · rintro (ha | ha) <;>
      simp [SubscriptionEvent.init, optTruthy, orDefault, ha]
  · intro l hl ha
    cases l with
    | nil => exact absurd rfl hl
    | cons a t => simp [SubscriptionEvent.init, optTruthy, orDefault, ha]
  · rintro (hk | hk) <;>
      simp [SubscriptionEvent.init, optTruthy, orDefault, hk]
  · intro k hk ha
    cases k with
    | nil => exact absurd rfl hk
    | cons a t => simp [SubscriptionEvent.init, optTruthy, orDefault, ha]

/-- Witness for C10 at a message with absent args, empty kwargs and non-empty
details. -/
theorem subscriptionEvent_normalizes_witness :
    (SubscriptionEvent.init 0 ⟨7, none, some [], [("k", WAMPType.int 1)]⟩
      "com.example.topic").args = [] ∧
    (SubscriptionEvent.init 0 ⟨7, none, some [], [("k", WAMPType.int 1)]⟩
      "com.example.topic").kwargs = [] ∧
    (SubscriptionEvent.init 0 ⟨7, none, some [], [("k", WAMPType.int 1)]⟩
      "com.example.topic").details = [("k", WAMPType.int 1)] :=
  ⟨(subscriptionEvent_normalizes 0 ⟨7, none, some [], [("k", WAMPType.int 1)]⟩
      "com.example.topic").1 (Or.inl rfl),
   (subscriptionEvent_normalizes 0 ⟨7, none, some [], [("k", WAMPType.int 1)]⟩
      "com.example.topic").2.2.1 (Or.inr rfl),
   (subscriptionEvent_normalizes 0 ⟨7, none, some [], [("k", WAMPType.int 1)]⟩
      "com.example.topic").2.2.2.2⟩

end Aiowamp

